import Mathlib

/-!
Verification of the GenZVibe social-media backend storage layer.

The repository stores users, posts, likes, comments, follows and stories.
Two storage implementations exist: an in-memory one (class MemStorage,
backed by javascript Maps keyed by numeric id) and a database-backed one
(class DatabaseStorage, issuing drizzle-orm queries).  REST routes delegate
to these.  This file embeds both storage layers and the relevant routes as
Lean functions over an explicit state record and proves properties of the
feed, follow, like, story and pagination operations, as well as the
password-stripping discipline of the HTTP routes.

Modelling conventions:
  - javascript Maps are association lists in insertion order; Map.set with a
    fresh key appends, Map.set with an existing key replaces in place,
    Map.delete removes the keyed entry and reports presence;
  - Date values are Nat millisecond timestamps (Date.getTime());
  - Array.prototype.sort with a comparator is a stable sort, embedded with
    the stable List.insertionSort on the corresponding relation;
  - nullable / optional columns are Option values;
  - operations that consult the clock (new Date()) take an explicit now
    argument.
-/

set_option autoImplicit false

universe u

namespace GenZVibe

variable {α : Type u}

/-- A row of the users table (shared/schema.ts): id, username, password,
nullable displayName / bio / location / avatarUrl, createdAt. -/
structure User where
  id : Nat
  username : String
  password : String
  displayName : Option String
  bio : Option String
  location : Option String
  avatarUrl : Option String
  createdAt : Nat
deriving DecidableEq, Repr

/-- A row of the posts table: non-null caption and type, optional mediaUrl
and location. -/
structure Post where
  id : Nat
  userId : Nat
  caption : String
  type : String
  mediaUrl : Option String
  location : Option String
  createdAt : Nat
deriving DecidableEq, Repr

/-- A row of the likes table. -/
structure Like where
  id : Nat
  userId : Nat
  postId : Nat
  createdAt : Nat
deriving DecidableEq, Repr

/-- A row of the comments table. -/
structure Comment where
  id : Nat
  userId : Nat
  postId : Nat
  content : String
  createdAt : Nat
deriving DecidableEq, Repr

/-- A row of the follows table: a directed follower -> following edge. -/
structure Follow where
  id : Nat
  followerId : Nat
  followingId : Nat
  createdAt : Nat
deriving DecidableEq, Repr

/-- A row of the stories table, with an expiration timestamp. -/
structure Story where
  id : Nat
  userId : Nat
  imageUrl : String
  createdAt : Nat
  expiresAt : Nat
deriving DecidableEq, Repr

/-- Insert payload for users (insertUserSchema: users minus id, createdAt). -/
structure InsertUser where
  username : String
  password : String
  displayName : Option String
  bio : Option String
  location : Option String
  avatarUrl : Option String
deriving DecidableEq, Repr

/-- Insert payload for posts (insertPostSchema: posts minus id, createdAt). -/
structure InsertPost where
  userId : Nat
  caption : String
  type : String
  mediaUrl : Option String
  location : Option String
deriving DecidableEq, Repr

/-- Insert payload for likes. -/
structure InsertLike where
  userId : Nat
  postId : Nat
deriving DecidableEq, Repr

/-- Insert payload for comments. -/
structure InsertComment where
  userId : Nat
  postId : Nat
  content : String
deriving DecidableEq, Repr

/-- Insert payload for follows. -/
structure InsertFollow where
  followerId : Nat
  followingId : Nat
deriving DecidableEq, Repr

/-- Insert payload for stories. -/
structure InsertStory where
  userId : Nat
  imageUrl : String
  expiresAt : Nat
deriving DecidableEq, Repr

/-- A Partial User object as accepted by updateUser: every field of User
except id may be supplied; for nullable columns the supplied value is itself
an Option. -/
structure UserPatch where
  username : Option String
  password : Option String
  displayName : Option (Option String)
  bio : Option (Option String)
  location : Option (Option String)
  avatarUrl : Option (Option String)
  createdAt : Option Nat
deriving DecidableEq, Repr

/-- The full storage state: one list per table (in Map / table insertion
order) plus the id counters of MemStorage, which double as the serial
sequences of the database tables. -/
structure State where
  users : List User
  posts : List Post
  likes : List Like
  comments : List Comment
  follows : List Follow
  stories : List Story
  userIdCounter : Nat
  postIdCounter : Nat
  likeIdCounter : Nat
  commentIdCounter : Nat
  followIdCounter : Nat
  storyIdCounter : Nat
deriving DecidableEq, Repr

/-- The state of a freshly constructed MemStorage: empty Maps, counters 1. -/
def initialState : State :=
  { users := [], posts := [], likes := [], comments := [], follows := []
    stories := [], userIdCounter := 1, postIdCounter := 1, likeIdCounter := 1
    commentIdCounter := 1, followIdCounter := 1, storyIdCounter := 1 }

/-- Map.set keyed by key: replace in place when the key is present,
append otherwise. -/
def setByKey (key : α → Nat) (xs : List α) (x : α) : List α :=
  if xs.any (fun y => key y == key x) then
    xs.map (fun y => if key y == key x then x else y)
  else xs ++ [x]

/-- Map.delete keyed by key: report whether the key was present and remove
the keyed entry. -/
def deleteByKey (key : α → Nat) (xs : List α) (i : Nat) : Bool × List α :=
  (xs.any (fun y => key y == i), xs.filter (fun y => !(key y == i)))

/-- Array.prototype.sort with comparator (a, b) => b.key - a.key:
newest first. -/
def sortNewest (key : α → Nat) (xs : List α) : List α :=
  xs.insertionSort (fun a b => key b ≤ key a)

/-- Array.prototype.sort with comparator (a, b) => a.key - b.key:
oldest first. -/
def sortOldest (key : α → Nat) (xs : List α) : List α :=
  xs.insertionSort (fun a b => key a ≤ key b)

/-- String.prototype.includes: the needle occurs as a substring. -/
def strIncludes (haystack needle : String) : Bool :=
  decide (needle.toList <:+: haystack.toList)

theorem mem_sortNewest {key : α → Nat} {xs : List α} {a : α} :
    a ∈ sortNewest key xs ↔ a ∈ xs :=
  List.mem_insertionSort _

theorem pairwise_sortNewest (key : α → Nat) (xs : List α) :
    (sortNewest key xs).Pairwise (fun a b => key b ≤ key a) := by
  haveI : IsTotal α (fun a b => key b ≤ key a) :=
    ⟨fun a b => Nat.le_total (key b) (key a)⟩
  haveI : IsTrans α (fun a b => key b ≤ key a) :=
    ⟨fun a b c hab hbc => Nat.le_trans hbc hab⟩
  exact List.sorted_insertionSort _ xs

theorem mem_sortOldest {key : α → Nat} {xs : List α} {a : α} :
    a ∈ sortOldest key xs ↔ a ∈ xs :=
  List.mem_insertionSort _

namespace MemStorage

/-- MemStorage.createUser: take a fresh id from the counter, stamp the
current time, store. -/
def createUser (st : State) (now : Nat) (iu : InsertUser) : User × State :=
  let id := st.userIdCounter
  let user : User :=
    { id := id, username := iu.username, password := iu.password
      displayName := iu.displayName, bio := iu.bio, location := iu.location
      avatarUrl := iu.avatarUrl, createdAt := now }
  (user, { st with users := setByKey User.id st.users user
                   userIdCounter := id + 1 })

/-- MemStorage.getUser: Map lookup by id. -/
def getUser (st : State) (id : Nat) : Option User :=
  st.users.find? (fun u => u.id == id)

/-- MemStorage.getUserByUsername: first user with the given username. -/
def getUserByUsername (st : State) (username : String) : Option User :=
  st.users.find? (fun u => u.username == username)

/-- MemStorage.updateUser: merge the patch over the stored user. -/
def updateUser (st : State) (id : Nat) (data : UserPatch) :
    Option User × State :=
  match st.users.find? (fun u => u.id == id) with
  | none => (none, st)
  | some u =>
    let u2 : User :=
      { id := u.id, username := data.username.getD u.username
        password := data.password.getD u.password
        displayName := data.displayName.getD u.displayName
        bio := data.bio.getD u.bio
        location := data.location.getD u.location
        avatarUrl := data.avatarUrl.getD u.avatarUrl
        createdAt := data.createdAt.getD u.createdAt }
    (some u2, { st with users := setByKey User.id st.users u2 })

/-- MemStorage.searchUsers: empty query gives no results, otherwise filter
by case-insensitive substring of username or displayName. -/
def searchUsers (st : State) (query : String) : List User :=
  if query = "" then []
  else
    let lowerQuery := query.toLower
    st.users.filter (fun u =>
      strIncludes u.username.toLower lowerQuery ||
        (match u.displayName with
          | some d => strIncludes d.toLower lowerQuery
          | none => false))

/-- MemStorage.createPost: fresh id, timestamp, store. -/
def createPost (st : State) (now : Nat) (ip : InsertPost) : Post × State :=
  let id := st.postIdCounter
  let post : Post :=
    { id := id, userId := ip.userId, caption := ip.caption, type := ip.type
      mediaUrl := ip.mediaUrl, location := ip.location, createdAt := now }
  (post, { st with posts := setByKey Post.id st.posts post
                   postIdCounter := id + 1 })

/-- MemStorage.getPost: Map lookup by id. -/
def getPost (st : State) (id : Nat) : Option Post :=
  st.posts.find? (fun p => p.id == id)

/-- MemStorage.getPosts(limit = 20, offset = 0): sort newest first and
slice(offset, offset + limit). -/
def getPosts (st : State) (limit : Nat := 20) (offset : Nat := 0) :
    List Post :=
  ((sortNewest Post.createdAt st.posts).drop offset).take limit

/-- MemStorage.getUserPosts: posts of one author, newest first. -/
def getUserPosts (st : State) (userId : Nat) : List Post :=
  sortNewest Post.createdAt (st.posts.filter (fun p => p.userId == userId))

/-- MemStorage.getFollowing: the users whose id occurs as followingId of a
follow whose followerId is the given user. -/
def getFollowing (st : State) (userId : Nat) : List User :=
  let followingIds :=
    (st.follows.filter (fun f => f.followerId == userId)).map Follow.followingId
  st.users.filter (fun u => followingIds.contains u.id)

/-- MemStorage.getFollowers: the users whose id occurs as followerId of a
follow whose followingId is the given user. -/
def getFollowers (st : State) (userId : Nat) : List User :=
  let followerIds :=
    (st.follows.filter (fun f => f.followingId == userId)).map Follow.followerId
  st.users.filter (fun u => followerIds.contains u.id)

/-- MemStorage.getFeedPosts: ids of followed users (resolved through the
users Map) plus the user itself, then filter the posts and sort newest
first. -/
def getFeedPosts (st : State) (userId : Nat) : List Post :=
  let following := getFollowing st userId
  let followingIds := following.map User.id ++ [userId]
  sortNewest Post.createdAt
    (st.posts.filter (fun p => followingIds.contains p.userId))

/-- MemStorage.deletePost: Map.delete by id. -/
def deletePost (st : State) (id : Nat) : Bool × State :=
  let (deleted, posts2) := deleteByKey Post.id st.posts id
  (deleted, { st with posts := posts2 })

/-- MemStorage.hasUserLikedPost: a like by this user on this post exists. -/
def hasUserLikedPost (st : State) (userId postId : Nat) : Bool :=
  st.likes.any (fun l => l.userId == userId && l.postId == postId)

/-- MemStorage.createLike: if the (user, post) pair already has a like,
return it unchanged; otherwise insert a fresh like. -/
def createLike (st : State) (now : Nat) (il : InsertLike) : Like × State :=
  let fresh : Like × State :=
    let id := st.likeIdCounter
    let like : Like :=
      { id := id, userId := il.userId, postId := il.postId, createdAt := now }
    (like, { st with likes := setByKey Like.id st.likes like
                     likeIdCounter := id + 1 })
  if hasUserLikedPost st il.userId il.postId then
    match st.likes.find?
        (fun l => l.userId == il.userId && l.postId == il.postId) with
    | some existingLike => (existingLike, st)
    | none => fresh
  else fresh

/-- MemStorage.deleteLike: find the like of this user on this post and
Map.delete it by id; report false when there is none. -/
def deleteLike (st : State) (userId postId : Nat) : Bool × State :=
  match st.likes.find?
      (fun l => l.userId == userId && l.postId == postId) with
  | some like =>
    let (deleted, likes2) := deleteByKey Like.id st.likes like.id
    (deleted, { st with likes := likes2 })
  | none => (false, st)

/-- MemStorage.getLikesByPost. -/
def getLikesByPost (st : State) (postId : Nat) : List Like :=
  st.likes.filter (fun l => l.postId == postId)

/-- MemStorage.getLikesByUser. -/
def getLikesByUser (st : State) (userId : Nat) : List Like :=
  st.likes.filter (fun l => l.userId == userId)

/-- MemStorage.createComment. -/
def createComment (st : State) (now : Nat) (ic : InsertComment) :
    Comment × State :=
  let id := st.commentIdCounter
  let comment : Comment :=
    { id := id, userId := ic.userId, postId := ic.postId
      content := ic.content, createdAt := now }
  (comment, { st with comments := setByKey Comment.id st.comments comment
                      commentIdCounter := id + 1 })

/-- MemStorage.getCommentsByPost: oldest first. -/
def getCommentsByPost (st : State) (postId : Nat) : List Comment :=
  sortOldest Comment.createdAt
    (st.comments.filter (fun c => c.postId == postId))

/-- MemStorage.deleteComment. -/
def deleteComment (st : State) (id : Nat) : Bool × State :=
  let (deleted, comments2) := deleteByKey Comment.id st.comments id
  (deleted, { st with comments := comments2 })

/-- MemStorage.isFollowing. -/
def isFollowing (st : State) (followerId followingId : Nat) : Bool :=
  st.follows.any (fun f =>
    f.followerId == followerId && f.followingId == followingId)

/-- MemStorage.createFollow: if the relationship exists, return it
unchanged; otherwise insert a fresh follow. -/
def createFollow (st : State) (now : Nat) (f : InsertFollow) :
    Follow × State :=
  let fresh : Follow × State :=
    let id := st.followIdCounter
    let follow : Follow :=
      { id := id, followerId := f.followerId, followingId := f.followingId
        createdAt := now }
    (follow, { st with follows := setByKey Follow.id st.follows follow
                       followIdCounter := id + 1 })
  if isFollowing st f.followerId f.followingId then
    match st.follows.find? (fun g =>
        g.followerId == f.followerId && g.followingId == f.followingId) with
    | some existingFollow => (existingFollow, st)
    | none => fresh
  else fresh

/-- MemStorage.deleteFollow. -/
def deleteFollow (st : State) (followerId followingId : Nat) : Bool × State :=
  match st.follows.find? (fun f =>
      f.followerId == followerId && f.followingId == followingId) with
  | some follow =>
    let (deleted, follows2) := deleteByKey Follow.id st.follows follow.id
    (deleted, { st with follows := follows2 })
  | none => (false, st)

/-- MemStorage.createStory. -/
def createStory (st : State) (now : Nat) (is : InsertStory) : Story × State :=
  let id := st.storyIdCounter
  let story : Story :=
    { id := id, userId := is.userId, imageUrl := is.imageUrl
      createdAt := now, expiresAt := is.expiresAt }
  (story, { st with stories := setByKey Story.id st.stories story
                    storyIdCounter := id + 1 })

/-- MemStorage.getActiveStories: stories strictly not yet expired, newest
first. -/
def getActiveStories (st : State) (now : Nat) : List Story :=
  sortNewest Story.createdAt
    (st.stories.filter (fun s => decide (now < s.expiresAt)))

/-- MemStorage.getUserStories: the given user's not-yet-expired stories,
newest first. -/
def getUserStories (st : State) (userId : Nat) (now : Nat) : List Story :=
  sortNewest Story.createdAt
    (st.stories.filter
      (fun s => s.userId == userId && decide (now < s.expiresAt)))

end MemStorage

namespace DatabaseStorage

/-- DatabaseStorage.getUser: select from users where id = given. -/
def getUser (st : State) (id : Nat) : Option User :=
  (st.users.filter (fun u => u.id == id)).head?

/-- DatabaseStorage.getUserByUsername. -/
def getUserByUsername (st : State) (username : String) : Option User :=
  (st.users.filter (fun u => u.username == username)).head?

/-- DatabaseStorage.searchUsers: equality of username against the literal
percent-wrapped lowercased pattern (the simplified approach in the
source). -/
def searchUsers (st : State) (query : String) : List User :=
  if query = "" then []
  else
    let lowerQuery := "%" ++ query.toLower ++ "%"
    st.users.filter (fun u => u.username == lowerQuery)

/-- DatabaseStorage.getPost. -/
def getPost (st : State) (id : Nat) : Option Post :=
  (st.posts.filter (fun p => p.id == id)).head?

/-- DatabaseStorage.getPosts(limit = 20, offset = 0): order by createdAt
descending, offset, limit. -/
def getPosts (st : State) (limit : Nat := 20) (offset : Nat := 0) :
    List Post :=
  ((sortNewest Post.createdAt st.posts).drop offset).take limit

/-- DatabaseStorage.getUserPosts. -/
def getUserPosts (st : State) (userId : Nat) : List Post :=
  sortNewest Post.createdAt (st.posts.filter (fun p => p.userId == userId))

/-- DatabaseStorage.getFollowers: collect the followerIds, then select users
whose id equals the FIRST followerId only (the temporary simplification in
the source). -/
def getFollowers (st : State) (userId : Nat) : List User :=
  let followerIds :=
    (st.follows.filter (fun f => f.followingId == userId)).map Follow.followerId
  match followerIds with
  | [] => []
  | i :: _ => st.users.filter (fun u => u.id == i)

/-- DatabaseStorage.getFollowing: collect the followingIds, then select
users whose id equals the FIRST followingId only (the temporary
simplification in the source). -/
def getFollowing (st : State) (userId : Nat) : List User :=
  let followingIds :=
    (st.follows.filter (fun f => f.followerId == userId)).map Follow.followingId
  match followingIds with
  | [] => []
  | i :: _ => st.users.filter (fun u => u.id == i)

/-- DatabaseStorage.getFeedPosts: computes the followed ids but the final
query selects only posts where userId = the requesting user (the temporary
simplification flagged in the source). -/
def getFeedPosts (st : State) (userId : Nat) : List Post :=
  let followedUserIds := (getFollowing st userId).map User.id ++ [userId]
  let _ := followedUserIds
  sortNewest Post.createdAt (st.posts.filter (fun p => p.userId == userId))

/-- DatabaseStorage.hasUserLikedPost. -/
def hasUserLikedPost (st : State) (userId postId : Nat) : Bool :=
  ((st.likes.filter
    (fun l => l.userId == userId && l.postId == postId)).head?).isSome

/-- DatabaseStorage.createLike: check-then-insert, like MemStorage. -/
def createLike (st : State) (now : Nat) (il : InsertLike) : Like × State :=
  let fresh : Like × State :=
    let id := st.likeIdCounter
    let like : Like :=
      { id := id, userId := il.userId, postId := il.postId, createdAt := now }
    (like, { st with likes := st.likes ++ [like], likeIdCounter := id + 1 })
  if hasUserLikedPost st il.userId il.postId then
    match (st.likes.filter
        (fun l => l.userId == il.userId && l.postId == il.postId)).head? with
    | some existingLike => (existingLike, st)
    | none => fresh
  else fresh

/-- DatabaseStorage.deleteLike: delete from likes where userId and postId
match; report whether a row was deleted. -/
def deleteLike (st : State) (userId postId : Nat) : Bool × State :=
  (st.likes.any (fun l => l.userId == userId && l.postId == postId),
    { st with likes :=
        st.likes.filter (fun l => !(l.userId == userId && l.postId == postId)) })

/-- DatabaseStorage.getLikesByPost. -/
def getLikesByPost (st : State) (postId : Nat) : List Like :=
  st.likes.filter (fun l => l.postId == postId)

/-- DatabaseStorage.getCommentsByPost: ordered by createdAt ascending. -/
def getCommentsByPost (st : State) (postId : Nat) : List Comment :=
  sortOldest Comment.createdAt
    (st.comments.filter (fun c => c.postId == postId))

/-- DatabaseStorage.isFollowing. -/
def isFollowing (st : State) (followerId followingId : Nat) : Bool :=
  ((st.follows.filter (fun f =>
    f.followerId == followerId && f.followingId == followingId)).head?).isSome

/-- DatabaseStorage.getActiveStories: expiresAt strictly greater than now,
ordered by createdAt descending. -/
def getActiveStories (st : State) (now : Nat) : List Story :=
  sortNewest Story.createdAt
    (st.stories.filter (fun s => decide (now < s.expiresAt)))

/-- DatabaseStorage.getUserStories: the given user's stories with expiresAt
strictly greater than now, ordered by createdAt descending. -/
def getUserStories (st : State) (userId : Nat) (now : Nat) : List Story :=
  sortNewest Story.createdAt
    (st.stories.filter
      (fun s => s.userId == userId && decide (now < s.expiresAt)))

end DatabaseStorage

namespace Routes

/-- The multipart body of POST /api/posts: caption, location and type are
client-supplied form fields, each possibly absent. -/
structure PostBody where
  caption : Option String
  location : Option String
  type : Option String
deriving DecidableEq, Repr

/-- insertPostSchema.parse on the postData object assembled by the route:
userId is the authenticated user, caption and type are required strings,
mediaUrl and location are optional. -/
def parseInsertPost (userId : Nat) (body : PostBody)
    (mediaUrl : Option String) : Option InsertPost :=
  match body.caption, body.type with
  | some c, some t =>
    some { userId := userId, caption := c, type := t
           mediaUrl := mediaUrl, location := body.location }
  | _, _ => none

/-- POST /api/posts (object-storage variant): validate with
insertPostSchema, store on success with 201, reject with 400 on a Zod
error.  The mediaUrl argument stands for the signed url of the uploaded
file, when one was uploaded. -/
def createPostRoute (st : State) (now : Nat) (currentUserId : Nat)
    (body : PostBody) (mediaUrl : Option String) : Nat × State :=
  match parseInsertPost currentUserId body mediaUrl with
  | none => (400, st)
  | some ip =>
    let (_, st2) := MemStorage.createPost st now ip
    (201, st2)

/-- getPostTypeFromMimetype: text for a missing or empty mimetype, image
and video by prefix, text otherwise. -/
def getPostTypeFromMimetype (mimetype : Option String) : String :=
  match mimetype with
  | none => "text"
  | some m =>
    if m = "" then "text"
    else if m.startsWith "image/" then "image"
    else if m.startsWith "video/" then "video"
    else "text"

/-- POST /api/users/:id/follow: reject self-follows with 400 before
touching storage, 404 for a missing target, otherwise create the follow
and answer 201. -/
def followRoute (st : State) (now : Nat) (currentUserId targetId : Nat) :
    Nat × State :=
  if targetId == currentUserId then (400, st)
  else
    match MemStorage.getUser st targetId with
    | none => (404, st)
    | some _ =>
      let (_, st2) := MemStorage.createFollow st now
        { followerId := currentUserId, followingId := targetId }
      (201, st2)

/-- DELETE /api/posts/:id/like: delegate to deleteLike and answer 404 when
nothing was deleted, 200 otherwise. -/
def deleteLikeRoute (st : State) (currentUserId postId : Nat) :
    Nat × State :=
  let (deleted, st2) := MemStorage.deleteLike st currentUserId postId
  (if deleted then 200 else 404, st2)

/-- A JSON value.  Arrays and objects are encoded structurally so that the
password-absence scan is a plain structural recursion. -/
inductive Json where
  | null : Json
  | str : String → Json
  | num : Nat → Json
  | bool : Bool → Json
  | arrNil : Json
  | arrCons : Json → Json → Json
  | objNil : Json
  | objCons : String → Json → Json → Json
deriving DecidableEq, Repr

/-- Build a JSON array from a list of values. -/
def jarr (xs : List Json) : Json :=
  xs.foldr Json.arrCons Json.arrNil

/-- A nullable string field. -/
def optStrJson : Option String → Json
  | some s => Json.str s
  | none => Json.null

/-- True when some object anywhere inside the value carries a field named
password. -/
def hasPwKey : Json → Bool
  | Json.objCons k v rest => k == "password" || hasPwKey v || hasPwKey rest
  | Json.arrCons h t => hasPwKey h || hasPwKey t
  | _ => false

/-- The serialization of a user after destructuring away the password:
every column of the users table except password. -/
def userJson (u : User) : Json :=
  Json.objCons "id" (Json.num u.id)
    (Json.objCons "username" (Json.str u.username)
      (Json.objCons "displayName" (optStrJson u.displayName)
        (Json.objCons "bio" (optStrJson u.bio)
          (Json.objCons "location" (optStrJson u.location)
            (Json.objCons "avatarUrl" (optStrJson u.avatarUrl)
              (Json.objCons "createdAt" (Json.num u.createdAt)
                Json.objNil))))))

/-- The error body { message }. -/
def errJson (message : String) : Json :=
  Json.objCons "message" (Json.str message) Json.objNil

/-- The post-with-user-and-counts object returned by the post list, feed
and single post routes. -/
def postWithDataJson (st : State) (auth : Option Nat) (p : Post)
    (u : User) : Json :=
  Json.objCons "id" (Json.num p.id)
    (Json.objCons "userId" (Json.num p.userId)
      (Json.objCons "caption" (Json.str p.caption)
        (Json.objCons "type" (Json.str p.type)
          (Json.objCons "mediaUrl" (optStrJson p.mediaUrl)
            (Json.objCons "location" (optStrJson p.location)
              (Json.objCons "createdAt" (Json.num p.createdAt)
                (Json.objCons "user" (userJson u)
                  (Json.objCons "likes"
                      (Json.num (DatabaseStorage.getLikesByPost st p.id).length)
                    (Json.objCons "comments"
                        (Json.num
                          (DatabaseStorage.getCommentsByPost st p.id).length)
                      (Json.objCons "hasLiked"
                          (Json.bool
                            (match auth with
                              | some cu =>
                                DatabaseStorage.hasUserLikedPost st cu p.id
                              | none => false))
                        Json.objNil))))))))))

/-- The comment-with-user object. -/
def commentJson (c : Comment) (u : User) : Json :=
  Json.objCons "id" (Json.num c.id)
    (Json.objCons "userId" (Json.num c.userId)
      (Json.objCons "postId" (Json.num c.postId)
        (Json.objCons "content" (Json.str c.content)
          (Json.objCons "createdAt" (Json.num c.createdAt)
            (Json.objCons "user" (userJson u) Json.objNil)))))

/-- The story-with-user object. -/
def storyJson (s : Story) (u : User) : Json :=
  Json.objCons "id" (Json.num s.id)
    (Json.objCons "userId" (Json.num s.userId)
      (Json.objCons "imageUrl" (Json.str s.imageUrl)
        (Json.objCons "createdAt" (Json.num s.createdAt)
          (Json.objCons "expiresAt" (Json.num s.expiresAt)
            (Json.objCons "user" (userJson u) Json.objNil)))))

/-- GET /api/users/:id. -/
def getUserRoute (st : State) (id : Nat) : Json :=
  match DatabaseStorage.getUser st id with
  | none => errJson "User not found"
  | some u => userJson u

/-- GET /api/users/search. -/
def searchUsersRoute (st : State) (q : String) : Json :=
  if q = "" then errJson "Query parameter q is required"
  else jarr ((DatabaseStorage.searchUsers st q).map userJson)

/-- GET /api/users/:id/followers. -/
def followersRoute (st : State) (id : Nat) : Json :=
  match DatabaseStorage.getUser st id with
  | none => errJson "User not found"
  | some _ => jarr ((DatabaseStorage.getFollowers st id).map userJson)

/-- GET /api/users/:id/following. -/
def followingRoute (st : State) (id : Nat) : Json :=
  match DatabaseStorage.getUser st id with
  | none => errJson "User not found"
  | some _ => jarr ((DatabaseStorage.getFollowing st id).map userJson)

/-- GET /api/posts: page of posts with user data; posts whose author is
missing are filtered out. -/
def postsRoute (st : State) (auth : Option Nat) (limit offset : Nat) : Json :=
  jarr ((DatabaseStorage.getPosts st limit offset).filterMap
    (fun p => (DatabaseStorage.getUser st p.userId).map
      (postWithDataJson st auth p)))

/-- GET /api/posts/feed. -/
def feedRoute (st : State) (uid : Nat) : Json :=
  jarr ((DatabaseStorage.getFeedPosts st uid).filterMap
    (fun p => (DatabaseStorage.getUser st p.userId).map
      (postWithDataJson st (some uid) p)))

/-- GET /api/posts/:id. -/
def postRoute (st : State) (auth : Option Nat) (pid : Nat) : Json :=
  match DatabaseStorage.getPost st pid with
  | none => errJson "Post not found"
  | some p =>
    match DatabaseStorage.getUser st p.userId with
    | none => errJson "User not found"
    | some u => postWithDataJson st auth p u

/-- GET /api/posts/:id/comments. -/
def commentsRoute (st : State) (pid : Nat) : Json :=
  match DatabaseStorage.getPost st pid with
  | none => errJson "Post not found"
  | some _ =>
    jarr ((DatabaseStorage.getCommentsByPost st pid).filterMap
      (fun c => (DatabaseStorage.getUser st c.userId).map (commentJson c)))

/-- GET /api/stories. -/
def storiesRoute (st : State) (now : Nat) : Json :=
  jarr ((DatabaseStorage.getActiveStories st now).filterMap
    (fun s => (DatabaseStorage.getUser st s.userId).map (storyJson s)))

/-- GET /api/users/:id/stories. -/
def userStoriesRoute (st : State) (uid : Nat) (now : Nat) : Json :=
  match DatabaseStorage.getUser st uid with
  | none => errJson "User not found"
  | some u =>
    jarr ((DatabaseStorage.getUserStories st uid now).map
      (fun s => storyJson s u))

end Routes

/-- One application of a public mutating storage operation of MemStorage. -/
inductive Step : State → State → Prop
  | createUser (st : State) (now : Nat) (iu : InsertUser) :
      Step st (MemStorage.createUser st now iu).2
  | updateUser (st : State) (id : Nat) (data : UserPatch) :
      Step st (MemStorage.updateUser st id data).2
  | createPost (st : State) (now : Nat) (ip : InsertPost) :
      Step st (MemStorage.createPost st now ip).2
  | deletePost (st : State) (id : Nat) :
      Step st (MemStorage.deletePost st id).2
  | createLike (st : State) (now : Nat) (il : InsertLike) :
      Step st (MemStorage.createLike st now il).2
  | deleteLike (st : State) (userId postId : Nat) :
      Step st (MemStorage.deleteLike st userId postId).2
  | createComment (st : State) (now : Nat) (ic : InsertComment) :
      Step st (MemStorage.createComment st now ic).2
  | deleteComment (st : State) (id : Nat) :
      Step st (MemStorage.deleteComment st id).2
  | createFollow (st : State) (now : Nat) (f : InsertFollow) :
      Step st (MemStorage.createFollow st now f).2
  | deleteFollow (st : State) (followerId followingId : Nat) :
      Step st (MemStorage.deleteFollow st followerId followingId).2
  | createStory (st : State) (now : Nat) (is : InsertStory) :
      Step st (MemStorage.createStory st now is).2

/-- A state reachable from a fresh MemStorage by public operations. -/
def Reachable (st : State) : Prop :=
  Relation.ReflTransGen Step initialState st

/-- At most one like per (userId, postId) pair. -/
def UniqueLikePairs (st : State) : Prop :=
  st.likes.Pairwise (fun a b => ¬(a.userId = b.userId ∧ a.postId = b.postId))

/-- Well-formedness of the likes Map: unique pairs and every stored id
below the id counter. -/
def LikesWf (st : State) : Prop :=
  UniqueLikePairs st ∧ ∀ l ∈ st.likes, l.id < st.likeIdCounter

theorem setByKey_append {key : α → Nat} {xs : List α} {x : α}
    (h : ∀ y ∈ xs, key y ≠ key x) : setByKey key xs x = xs ++ [x] := by
  unfold setByKey
  rw [if_neg]
  simp only [List.any_eq_true, beq_iff_eq, not_exists]
  intro y hy
  exact h y hy.1 hy.2

theorem updateUser_likes (st : State) (id : Nat) (data : UserPatch) :
    (MemStorage.updateUser st id data).2.likes = st.likes ∧
      (MemStorage.updateUser st id data).2.likeIdCounter = st.likeIdCounter := by
  unfold MemStorage.updateUser
  cases st.users.find? (fun u => u.id == id) <;> exact ⟨rfl, rfl⟩

theorem createFollow_likes (st : State) (now : Nat) (f : InsertFollow) :
    (MemStorage.createFollow st now f).2.likes = st.likes ∧
      (MemStorage.createFollow st now f).2.likeIdCounter = st.likeIdCounter := by
  unfold MemStorage.createFollow
  split
  · split <;> exact ⟨rfl, rfl⟩
  · exact ⟨rfl, rfl⟩

theorem deleteFollow_likes (st : State) (a b : Nat) :
    (MemStorage.deleteFollow st a b).2.likes = st.likes ∧
      (MemStorage.deleteFollow st a b).2.likeIdCounter = st.likeIdCounter := by
  unfold MemStorage.deleteFollow
  split <;> exact ⟨rfl, rfl⟩

theorem createLike_preserves (st : State) (now : Nat) (il : InsertLike)
    (h : LikesWf st) : LikesWf (MemStorage.createLike st now il).2 := by
  unfold MemStorage.createLike
  split
  · rename_i hliked
    split
    · exact h
    · rename_i hnone
      exfalso
      unfold MemStorage.hasUserLikedPost at hliked
      rcases List.any_eq_true.mp hliked with ⟨l, hl, hpl⟩
      exact List.find?_eq_none.mp hnone l hl hpl
  · rename_i hnot
    unfold MemStorage.hasUserLikedPost at hnot
    have hnomatch : ∀ l ∈ st.likes,
        ¬(l.userId = il.userId ∧ l.postId = il.postId) := by
      intro l hl hc
      exact hnot (List.any_eq_true.mpr
        ⟨l, hl, by simp [hc.1, hc.2]⟩)
    have hfreshid : ∀ l ∈ st.likes, Like.id l ≠ st.likeIdCounter := by
      intro l hl
      exact Nat.ne_of_lt (h.2 l hl)
    constructor
    · unfold UniqueLikePairs
      simp only
      rw [setByKey_append hfreshid]
      rw [List.pairwise_append]
      refine ⟨h.1, List.pairwise_singleton _ _, ?_⟩
      intro a ha b hb
      simp only [List.mem_singleton] at hb
      subst hb
      exact hnomatch a ha
    · intro l hl
      simp only at hl
      rw [setByKey_append hfreshid] at hl
      rcases List.mem_append.mp hl with hmem | hmem
      · exact Nat.lt_succ_of_lt (h.2 l hmem)
      · simp only [List.mem_singleton] at hmem
        subst hmem
        exact Nat.lt_succ_self _


theorem deleteLike_preserves (st : State) (u p : Nat)
    (h : LikesWf st) : LikesWf (MemStorage.deleteLike st u p).2 := by
  unfold MemStorage.deleteLike
  split
  · rename_i like hfind
    unfold deleteByKey
    refine ⟨?_, ?_⟩
    · exact h.1.sublist (List.filter_sublist _)
    · intro l hl
      exact h.2 l ((List.filter_sublist _).mem hl)
  · exact h

theorem likesWf_initial : LikesWf initialState := by
  constructor
  · simp [UniqueLikePairs, initialState]
  · intro l hl
    simp [initialState] at hl

theorem likesWf_step {st st2 : State} (h : Step st st2) (hw : LikesWf st) :
    LikesWf st2 := by
  cases h with
  | createUser now iu => exact ⟨hw.1, hw.2⟩
  | updateUser id data =>
    have he := updateUser_likes st id data
    exact ⟨by unfold UniqueLikePairs; rw [he.1]; exact hw.1,
      by rw [he.1, he.2]; exact hw.2⟩
  | createPost now ip => exact ⟨hw.1, hw.2⟩
  | deletePost id => exact ⟨hw.1, hw.2⟩
  | createLike now il => exact createLike_preserves st now il hw
  | deleteLike u p => exact deleteLike_preserves st u p hw
  | createComment now ic => exact ⟨hw.1, hw.2⟩
  | deleteComment id => exact ⟨hw.1, hw.2⟩
  | createFollow now f =>
    have he := createFollow_likes st now f
    exact ⟨by unfold UniqueLikePairs; rw [he.1]; exact hw.1,
      by rw [he.1, he.2]; exact hw.2⟩
  | deleteFollow a b =>
    have he := deleteFollow_likes st a b
    exact ⟨by unfold UniqueLikePairs; rw [he.1]; exact hw.1,
      by rw [he.1, he.2]; exact hw.2⟩
  | createStory now is => exact ⟨hw.1, hw.2⟩

theorem likesWf_of_reachable (st : State) (h : Reachable st) : LikesWf st := by
  induction h with
  | refl => exact likesWf_initial
  | tail _ hstep ih => exact likesWf_step hstep ih

theorem mem_setByKey {key : α → Nat} {xs : List α} {x y : α}
    (h : y ∈ setByKey key xs x) : y ∈ xs ∨ y = x := by
  unfold setByKey at h
  split at h
  · rcases List.mem_map.mp h with ⟨z, hz, hzy⟩
    split at hzy
    · exact Or.inr hzy.symm
    · exact Or.inl (hzy ▸ hz)
  · rcases List.mem_append.mp h with hmem | hmem
    · exact Or.inl hmem
    · exact Or.inr (List.mem_singleton.mp hmem)

theorem mem_getFollowing {st : State} {u : Nat} {v : User} :
    v ∈ MemStorage.getFollowing st u ↔
      v ∈ st.users ∧
        ∃ f ∈ st.follows, f.followerId = u ∧ f.followingId = v.id := by
  unfold MemStorage.getFollowing
  rw [List.mem_filter]
  simp only [List.contains_eq_any_beq, List.any_eq_true, List.mem_map,
    List.mem_filter, beq_iff_eq]
  aesop

/-- A minimal user record for concrete test states. -/
def mkUser (id : Nat) (name : String) : User :=
  { id := id, username := name, password := "password123"
    displayName := none, bio := none, location := none, avatarUrl := none
    createdAt := 0 }

/-- A post by the (absent) user 2. -/
def postC1 : Post :=
  { id := 1, userId := 2, caption := "c", type := "text", mediaUrl := none
    location := none, createdAt := 0 }

/-- The follow 1 -> 2 used in the feed counterexample. -/
def followC1 : Follow :=
  { id := 1, followerId := 1, followingId := 2, createdAt := 0 }

/-- A state where user 1 follows id 2, id 2 has a post, but no user record
with id 2 exists. -/
def stC1 : State :=
  { initialState with
    users := [mkUser 1 "user1"]
    follows := [followC1]
    posts := [postC1]
    userIdCounter := 2, followIdCounter := 2, postIdCounter := 2 }

/-- The post of followed user 2, for the feed refinement divergence. -/
def postC2 : Post :=
  { id := 1, userId := 2, caption := "p", type := "text", mediaUrl := none
    location := none, createdAt := 0 }

/-- A state where user 1 follows the existing user 2 and user 2 has one
post. -/
def stC2 : State :=
  { initialState with
    users := [mkUser 1 "user1", mkUser 2 "jay.k"]
    follows := [{ id := 1, followerId := 1, followingId := 2, createdAt := 0 }]
    posts := [postC2]
    userIdCounter := 3, followIdCounter := 2, postIdCounter := 2 }

/-- A state where users 2 and 3 both follow user 1, and user 1 follows
both of them. -/
def stC3 : State :=
  { initialState with
    users := [mkUser 1 "user1", mkUser 2 "jay.k", mkUser 3 "miachill"]
    follows :=
      [{ id := 1, followerId := 2, followingId := 1, createdAt := 0 },
       { id := 2, followerId := 3, followingId := 1, createdAt := 0 },
       { id := 3, followerId := 1, followingId := 2, createdAt := 0 },
       { id := 4, followerId := 1, followingId := 3, createdAt := 0 }]
    userIdCounter := 4, followIdCounter := 5 }

/-- A post body carrying a client-chosen type that is none of text, image,
video. -/
def bodyBanana : Routes.PostBody :=
  { caption := some "hi", location := none, type := some "banana" }

/-- The post the route stores for bodyBanana on the initial state. -/
def postBanana : Post :=
  { id := 1, userId := 1, caption := "hi", type := "banana", mediaUrl := none
    location := none, createdAt := 0 }

/-- The older of the two posts of stC7. -/
def postC7a : Post :=
  { id := 1, userId := 1, caption := "a", type := "text", mediaUrl := none
    location := none, createdAt := 10 }

/-- The newer of the two posts of stC7. -/
def postC7b : Post :=
  { id := 2, userId := 1, caption := "b", type := "text", mediaUrl := none
    location := none, createdAt := 20 }

/-- A state holding two posts with distinct timestamps. -/
def stC7 : State :=
  { initialState with posts := [postC7a, postC7b], postIdCounter := 3 }

/-- The state after calling createLike twice for the pair (1, 1) on a
fresh MemStorage. -/
abbrev stC8 : State :=
  (MemStorage.createLike
    (MemStorage.createLike initialState 5 { userId := 1, postId := 1 }).2
    6 { userId := 1, postId := 1 }).2

theorem hasPw_optStrJson (x : Option String) :
    Routes.hasPwKey (Routes.optStrJson x) = false := by
  cases x <;> rfl

theorem hasPw_errJson (m : String) :
    Routes.hasPwKey (Routes.errJson m) = false := by
  simp [Routes.errJson, Routes.hasPwKey]

theorem hasPw_userJson (u : User) :
    Routes.hasPwKey (Routes.userJson u) = false := by
  simp [Routes.userJson, Routes.hasPwKey, hasPw_optStrJson]

theorem hasPw_postWithDataJson (st : State) (auth : Option Nat) (p : Post)
    (u : User) :
    Routes.hasPwKey (Routes.postWithDataJson st auth p u) = false := by
  simp [Routes.postWithDataJson, Routes.hasPwKey, hasPw_optStrJson,
    hasPw_userJson]

theorem hasPw_commentJson (c : Comment) (u : User) :
    Routes.hasPwKey (Routes.commentJson c u) = false := by
  simp [Routes.commentJson, Routes.hasPwKey, hasPw_userJson, hasPw_optStrJson]

theorem hasPw_storyJson (s : Story) (u : User) :
    Routes.hasPwKey (Routes.storyJson s u) = false := by
  simp [Routes.storyJson, Routes.hasPwKey, hasPw_userJson, hasPw_optStrJson]

theorem hasPw_jarr {xs : List Routes.Json}
    (h : ∀ x ∈ xs, Routes.hasPwKey x = false) :
    Routes.hasPwKey (Routes.jarr xs) = false := by
  induction xs with
  | nil => rfl
  | cons a t ih =>
    have ha := h a (List.mem_cons_self a t)
    have ht : ∀ x ∈ t, Routes.hasPwKey x = false :=
      fun x hx => h x (List.mem_cons_of_mem a hx)
    simp [Routes.jarr, Routes.hasPwKey] at *
    exact ⟨ha, ih ht⟩

/-- C1 counterexample: in state stC1 a follow record with followerId 1 and
followingId equal to the post author exists and the post is stored, yet
MemStorage.getFeedPosts 1 does not return the post, because the followed id
has no user record and getFollowing resolves follows through the users Map.
-/
theorem C1_counterexample :
    followC1 ∈ stC1.follows ∧ followC1.followerId = 1 ∧
      followC1.followingId = postC1.userId ∧ postC1 ∈ stC1.posts ∧
      postC1 ∉ MemStorage.getFeedPosts stC1 1 := by
  decide

/-- C1 (amended): for every storage state and user id u,
MemStorage.getFeedPosts u returns exactly the posts whose author is u
itself or a user record present in the users store that u follows (a
follow with followerId u and followingId equal to that user record's id
exists), sorted by createdAt newest first. -/
theorem C1_feed_amended (st : State) (u : Nat) (p : Post) :
    (p ∈ MemStorage.getFeedPosts st u ↔
      p ∈ st.posts ∧
        (p.userId = u ∨ ∃ v ∈ st.users, v.id = p.userId ∧
          ∃ f ∈ st.follows, f.followerId = u ∧ f.followingId = v.id)) ∧
      (MemStorage.getFeedPosts st u).Pairwise
        (fun a b => b.createdAt ≤ a.createdAt) := by
  constructor
  · unfold MemStorage.getFeedPosts
    rw [mem_sortNewest, List.mem_filter]
    simp only [List.contains_eq_any_beq, List.any_eq_true, List.mem_append,
      List.mem_map, List.mem_singleton, beq_iff_eq]
    constructor
    · rintro ⟨hp, x, hx | hx, hpx⟩
      · rcases hx with ⟨v, hv, hvx⟩
        rcases mem_getFollowing.mp hv with ⟨hvu, f, hf, hfu, hfid⟩
        exact ⟨hp, Or.inr ⟨v, hvu, by omega, f, hf, hfu, hfid⟩⟩
      · subst hx
        exact ⟨hp, Or.inl hpx⟩
    · rintro ⟨hp, hu | ⟨v, hvu, hvid, f, hf, hfu, hfid⟩⟩
      · exact ⟨hp, u, Or.inr rfl, hu⟩
      · refine ⟨hp, v.id, Or.inl ⟨v, ?_, rfl⟩, hvid.symm⟩
        exact mem_getFollowing.mpr ⟨hvu, f, hf, hfu, hfid⟩
  · exact pairwise_sortNewest _ _

/-- C2: in state stC2, user 1 follows the existing user 2 who has a post;
MemStorage.getFeedPosts includes that post but DatabaseStorage.getFeedPosts
returns only user 1's own posts (here none), so the database-backed feed
does not return the same set of posts as the in-memory feed. -/
theorem C2_db_feed_divergence :
    DatabaseStorage.getFeedPosts stC2 1 = [] ∧
      MemStorage.getFeedPosts stC2 1 = [postC2] ∧
      postC2 ∈ MemStorage.getFeedPosts stC2 1 ∧
      postC2 ∉ DatabaseStorage.getFeedPosts stC2 1 := by
  decide

/-- C3: in state stC3, users 2 and 3 both follow user 1 and user 1 follows
both, yet DatabaseStorage.getFollowers 1 and DatabaseStorage.getFollowing 1
each return only the user matching the first follow record, dropping user
3, while the MemStorage versions return both. -/
theorem C3_db_followers_divergence :
    MemStorage.getFollowers stC3 1 = [mkUser 2 "jay.k", mkUser 3 "miachill"] ∧
      DatabaseStorage.getFollowers stC3 1 = [mkUser 2 "jay.k"] ∧
      MemStorage.getFollowing stC3 1 = [mkUser 2 "jay.k", mkUser 3 "miachill"] ∧
      DatabaseStorage.getFollowing stC3 1 = [mkUser 2 "jay.k"] ∧
      ({ id := 2, followerId := 3, followingId := 1, createdAt := 0 } : Follow)
        ∈ stC3.follows ∧
      mkUser 3 "miachill" ∉ DatabaseStorage.getFollowers stC3 1 := by
  decide

/-- C4: for every state and query time t, both getActiveStories
implementations return exactly the stories with expiresAt strictly later
than t, ordered by createdAt newest first, and both getUserStories
implementations return exactly the not-yet-expired stories of the given
user; an expired story is never returned. -/
theorem C4_stories_ephemeral (st : State) (t u : Nat) (s : Story) :
    (s ∈ MemStorage.getActiveStories st t ↔
        s ∈ st.stories ∧ t < s.expiresAt) ∧
      (s ∈ DatabaseStorage.getActiveStories st t ↔
        s ∈ st.stories ∧ t < s.expiresAt) ∧
      (s ∈ MemStorage.getUserStories st u t ↔
        s ∈ st.stories ∧ s.userId = u ∧ t < s.expiresAt) ∧
      (s ∈ DatabaseStorage.getUserStories st u t ↔
        s ∈ st.stories ∧ s.userId = u ∧ t < s.expiresAt) ∧
      (MemStorage.getActiveStories st t).Pairwise
        (fun a b => b.createdAt ≤ a.createdAt) ∧
      (DatabaseStorage.getActiveStories st t).Pairwise
        (fun a b => b.createdAt ≤ a.createdAt) := by
  refine ⟨?_, ?_, ?_, ?_, pairwise_sortNewest _ _, pairwise_sortNewest _ _⟩
  · unfold MemStorage.getActiveStories
    rw [mem_sortNewest, List.mem_filter]
    simp
  · unfold DatabaseStorage.getActiveStories
    rw [mem_sortNewest, List.mem_filter]
    simp
  · unfold MemStorage.getUserStories
    rw [mem_sortNewest, List.mem_filter]
    simp [and_assoc]
  · unfold DatabaseStorage.getUserStories
    rw [mem_sortNewest, List.mem_filter]
    simp [and_assoc]

/-- C6: when the follow target id equals the authenticated user's own id,
POST /api/users/:id/follow answers 400 and leaves the storage state
unchanged. -/
theorem C6_self_follow_rejected (st : State) (now uid : Nat) :
    Routes.followRoute st now uid uid = (400, st) := by
  simp [Routes.followRoute]

/-- C5 counterexample: the post-creation route accepts a body whose type
field is the string banana and stores a post with that type, which is none
of text, image, video. -/
theorem C5_counterexample :
    (Routes.createPostRoute initialState 0 1 bodyBanana none).1 = 201 ∧
      postBanana ∈
        (Routes.createPostRoute initialState 0 1 bodyBanana none).2.posts ∧
      postBanana.type ≠ "text" ∧ postBanana.type ≠ "image" ∧
      postBanana.type ≠ "video" := by
  decide

/-- C5 (amended): every post accepted and stored through the post-creation
route carries the required client-supplied caption string and the optional
client-supplied location, and the type derived from an uploaded file's
mimetype is always one of text, image, video; the stored type field itself,
however, is the arbitrary client-supplied string, which the schema does not
restrict to those three values. -/
theorem C5_post_creation_amended :
    (∀ m, Routes.getPostTypeFromMimetype m = "text" ∨
        Routes.getPostTypeFromMimetype m = "image" ∨
        Routes.getPostTypeFromMimetype m = "video") ∧
      ∀ st now uid body mediaUrl,
        ((Routes.createPostRoute st now uid body mediaUrl).1 = 201 →
          body.caption.isSome = true ∧ body.type.isSome = true) ∧
        ∀ p, p ∈ (Routes.createPostRoute st now uid body mediaUrl).2.posts →
          p ∈ st.posts ∨
            (some p.caption = body.caption ∧ p.location = body.location ∧
              p.mediaUrl = mediaUrl ∧ some p.type = body.type) := by
  constructor
  · intro m
    cases m with
    | none => exact Or.inl rfl
    | some s =>
      simp only [Routes.getPostTypeFromMimetype]
      split_ifs <;> simp
  · intro st now uid body mediaUrl
    rcases hc : body.caption with _ | c <;> rcases ht : body.type with _ | t
    · refine ⟨fun h => ?_, fun p hp => Or.inl ?_⟩
      · exact absurd h (by
          simp [Routes.createPostRoute, Routes.parseInsertPost, hc, ht])
      · simpa [Routes.createPostRoute, Routes.parseInsertPost, hc, ht]
          using hp
    · refine ⟨fun h => ?_, fun p hp => Or.inl ?_⟩
      · exact absurd h (by
          simp [Routes.createPostRoute, Routes.parseInsertPost, hc, ht])
      · simpa [Routes.createPostRoute, Routes.parseInsertPost, hc, ht]
          using hp
    · refine ⟨fun h => ?_, fun p hp => Or.inl ?_⟩
      · exact absurd h (by
          simp [Routes.createPostRoute, Routes.parseInsertPost, hc, ht])
      · simpa [Routes.createPostRoute, Routes.parseInsertPost, hc, ht]
          using hp
    · refine ⟨fun _ => ⟨rfl, rfl⟩, fun p hp => ?_⟩
      have hp2 : p ∈ setByKey Post.id st.posts
          { id := st.postIdCounter, userId := uid, caption := c, type := t
            mediaUrl := mediaUrl, location := body.location
            createdAt := now } := by
        simpa [Routes.createPostRoute, Routes.parseInsertPost, hc, ht,
          MemStorage.createPost] using hp
      rcases mem_setByKey hp2 with h | h
      · exact Or.inl h
      · subst h
        exact Or.inr ⟨rfl, rfl, rfl, rfl⟩

/-- C5 witness: the amended theorem applied at a concrete mimetype and at
the banana body on the initial state. -/
theorem C5_post_creation_amended_witness :
    (Routes.getPostTypeFromMimetype (some "image/png") = "text" ∨
        Routes.getPostTypeFromMimetype (some "image/png") = "image" ∨
        Routes.getPostTypeFromMimetype (some "image/png") = "video") ∧
      (bodyBanana.caption.isSome = true ∧ bodyBanana.type.isSome = true) ∧
      (postBanana ∈ initialState.posts ∨
        (some postBanana.caption = bodyBanana.caption ∧
          postBanana.location = bodyBanana.location ∧
          postBanana.mediaUrl = none ∧
          some postBanana.type = bodyBanana.type)) := by
  refine ⟨C5_post_creation_amended.1 (some "image/png"), ?_, ?_⟩
  · exact (C5_post_creation_amended.2 initialState 0 1 bodyBanana none).1
      (by decide)
  · exact (C5_post_creation_amended.2 initialState 0 1 bodyBanana none).2
      postBanana (by decide)

/-- C7: getPosts returns at most limit posts, sorted by createdAt newest
first, all drawn from the stored posts; the element at index i of the page
is the element at index offset + i of the full newest-first ordering (so
the page is the newest posts after skipping the offset newest); omitted
arguments default to limit 20 and offset 0; and the database implementation
agrees with the in-memory one. -/
theorem C7_getPosts_pagination (st : State) (limit offset : Nat) :
    (MemStorage.getPosts st limit offset).length ≤ limit ∧
      (MemStorage.getPosts st limit offset).Pairwise
        (fun a b => b.createdAt ≤ a.createdAt) ∧
      (∀ p, p ∈ MemStorage.getPosts st limit offset → p ∈ st.posts) ∧
      (∀ i, i < limit →
        (MemStorage.getPosts st limit offset)[i]? =
          (sortNewest Post.createdAt st.posts)[offset + i]?) ∧
      MemStorage.getPosts st = MemStorage.getPosts st 20 0 ∧
      DatabaseStorage.getPosts st limit offset =
        MemStorage.getPosts st limit offset := by
  refine ⟨?_, ?_, ?_, ?_, rfl, rfl⟩
  · rw [MemStorage.getPosts, List.length_take]
    exact Nat.min_le_left _ _
  · exact (pairwise_sortNewest Post.createdAt st.posts).sublist
      ((List.take_sublist _ _).trans (List.drop_sublist _ _))
  · intro p hp
    exact mem_sortNewest.mp
      (((List.take_sublist _ _).trans (List.drop_sublist _ _)).mem hp)
  · intro i hi
    rw [MemStorage.getPosts, List.getElem?_take_of_lt hi, List.getElem?_drop]

/-- C7 witness: the pagination theorem applied at limit 1, offset 1 on a
two-post state, with the hypotheses discharged concretely. -/
theorem C7_getPosts_pagination_witness :
    (MemStorage.getPosts stC7 1 1).length ≤ 1 ∧
      postC7a ∈ stC7.posts ∧
      (MemStorage.getPosts stC7 1 1)[0]? =
        (sortNewest Post.createdAt stC7.posts)[1 + 0]? := by
  have h := C7_getPosts_pagination stC7 1 1
  refine ⟨h.1, ?_, h.2.2.2.1 0 (by decide)⟩
  exact h.2.2.1 postC7a (by decide)

/-- C8: in every storage state reachable from a fresh MemStorage via the
public mutating operations there is at most one like per (userId, postId)
pair. -/
theorem C8_like_uniqueness (st : State) (h : Reachable st) :
    st.likes.Pairwise
      (fun a b => ¬(a.userId = b.userId ∧ a.postId = b.postId)) :=
  (likesWf_of_reachable st h).1

/-- C8 witness: createLike applied twice for the same pair yields a
reachable state, to which the uniqueness theorem applies. -/
theorem C8_like_uniqueness_witness :
    Reachable stC8 ∧
      stC8.likes.Pairwise
        (fun a b => ¬(a.userId = b.userId ∧ a.postId = b.postId)) := by
  have h1 : Reachable
      (MemStorage.createLike initialState 5 { userId := 1, postId := 1 }).2 :=
    Relation.ReflTransGen.tail Relation.ReflTransGen.refl
      (Step.createLike initialState 5 { userId := 1, postId := 1 })
  have h2 : Reachable stC8 :=
    Relation.ReflTransGen.tail h1
      (Step.createLike _ 6 { userId := 1, postId := 1 })
  exact ⟨h2, C8_like_uniqueness stC8 h2⟩

/-- C9: no response of the user, search, followers, following, post list,
feed, single post, comments, stories or user stories routes contains a
field named password anywhere in its JSON body. -/
theorem C9_no_password_in_responses (st : State) (q : String)
    (idArg pid uid limit offset now : Nat) (auth : Option Nat) :
    Routes.hasPwKey (Routes.getUserRoute st idArg) = false ∧
      Routes.hasPwKey (Routes.searchUsersRoute st q) = false ∧
      Routes.hasPwKey (Routes.followersRoute st idArg) = false ∧
      Routes.hasPwKey (Routes.followingRoute st idArg) = false ∧
      Routes.hasPwKey (Routes.postsRoute st auth limit offset) = false ∧
      Routes.hasPwKey (Routes.feedRoute st uid) = false ∧
      Routes.hasPwKey (Routes.postRoute st auth pid) = false ∧
      Routes.hasPwKey (Routes.commentsRoute st pid) = false ∧
      Routes.hasPwKey (Routes.storiesRoute st now) = false ∧
      Routes.hasPwKey (Routes.userStoriesRoute st uid now) = false := by
  refine ⟨?_, ?_, ?_, ?_, ?_, ?_, ?_, ?_, ?_, ?_⟩
  · unfold Routes.getUserRoute
    cases DatabaseStorage.getUser st idArg with
    | none => exact hasPw_errJson _
    | some u => exact hasPw_userJson u
  · unfold Routes.searchUsersRoute
    split
    · exact hasPw_errJson _
    · refine hasPw_jarr fun x hx => ?_
      rcases List.mem_map.mp hx with ⟨u, _, rfl⟩
      exact hasPw_userJson u
  · unfold Routes.followersRoute
    cases DatabaseStorage.getUser st idArg with
    | none => exact hasPw_errJson _
    | some u =>
      refine hasPw_jarr fun x hx => ?_
      rcases List.mem_map.mp hx with ⟨v, _, rfl⟩
      exact hasPw_userJson v
  · unfold Routes.followingRoute
    cases DatabaseStorage.getUser st idArg with
    | none => exact hasPw_errJson _
    | some u =>
      refine hasPw_jarr fun x hx => ?_
      rcases List.mem_map.mp hx with ⟨v, _, rfl⟩
      exact hasPw_userJson v
  · unfold Routes.postsRoute
    refine hasPw_jarr fun x hx => ?_
    rcases List.mem_filterMap.mp hx with ⟨p, _, hmap⟩
    rcases Option.map_eq_some'.mp hmap with ⟨u, _, rfl⟩
    exact hasPw_postWithDataJson st auth p u
  · unfold Routes.feedRoute
    refine hasPw_jarr fun x hx => ?_
    rcases List.mem_filterMap.mp hx with ⟨p, _, hmap⟩
    rcases Option.map_eq_some'.mp hmap with ⟨u, _, rfl⟩
    exact hasPw_postWithDataJson st (some uid) p u
  · unfold Routes.postRoute
    cases DatabaseStorage.getPost st pid with
    | none => exact hasPw_errJson _
    | some p =>
      dsimp only
      cases DatabaseStorage.getUser st p.userId with
      | none => exact hasPw_errJson _
      | some u => exact hasPw_postWithDataJson st auth p u
  · unfold Routes.commentsRoute
    cases DatabaseStorage.getPost st pid with
    | none => exact hasPw_errJson _
    | some p =>
      dsimp only
      refine hasPw_jarr fun x hx => ?_
      rcases List.mem_filterMap.mp hx with ⟨c, _, hmap⟩
      rcases Option.map_eq_some'.mp hmap with ⟨u, _, rfl⟩
      exact hasPw_commentJson c u
  · unfold Routes.storiesRoute
    refine hasPw_jarr fun x hx => ?_
    rcases List.mem_filterMap.mp hx with ⟨s, _, hmap⟩
    rcases Option.map_eq_some'.mp hmap with ⟨u, _, rfl⟩
    exact hasPw_storyJson s u
  · unfold Routes.userStoriesRoute
    cases DatabaseStorage.getUser st uid with
    | none => exact hasPw_errJson _
    | some u =>
      refine hasPw_jarr fun x hx => ?_
      rcases List.mem_map.mp hx with ⟨s, _, rfl⟩
      exact hasPw_storyJson s u

/-- A state holding exactly one like, by user 1 on post 1. -/
def stC10 : State :=
  { initialState with
    likes := [{ id := 1, userId := 1, postId := 1, createdAt := 0 }]
    likeIdCounter := 2 }

/-- C10: on a state whose likes have pairwise distinct ids and at most one
like per (userId, postId) pair, deleteLike returns true and removes exactly
the like of that user on that post when one exists; otherwise it returns
false and leaves the entire state unchanged, in which case the DELETE
/api/posts/:id/like route answers 404; and the database implementation
computes the same result. -/
theorem C10_deleteLike_exact (st : State) (u p : Nat)
    (hid : st.likes.Pairwise (fun a b => a.id ≠ b.id))
    (hup : st.likes.Pairwise
      (fun a b => ¬(a.userId = b.userId ∧ a.postId = b.postId))) :
    ((∃ l ∈ st.likes, l.userId = u ∧ l.postId = p) →
        (MemStorage.deleteLike st u p).1 = true ∧
          (MemStorage.deleteLike st u p).2 =
            { st with likes := st.likes.filter (fun l => !(l.userId == u && l.postId == p)) }) ∧
      ((¬∃ l ∈ st.likes, l.userId = u ∧ l.postId = p) →
        MemStorage.deleteLike st u p = (false, st) ∧
          Routes.deleteLikeRoute st u p = (404, st)) ∧
      DatabaseStorage.deleteLike st u p = MemStorage.deleteLike st u p := by
  have hpred : ∀ l : Like,
      (l.userId == u && l.postId == p) = true ↔
        (l.userId = u ∧ l.postId = p) := by
    intro l
    simp
  cases hf : st.likes.find? (fun l => l.userId == u && l.postId == p) with
  | none =>
    have hnone : ∀ l ∈ st.likes, ¬(l.userId = u ∧ l.postId = p) := by
      intro l hl hc
      have := List.find?_eq_none.mp hf l hl
      exact this ((hpred l).mpr hc)
    have hmem : MemStorage.deleteLike st u p = (false, st) := by
      unfold MemStorage.deleteLike
      rw [hf]
    have hany : st.likes.any (fun l => l.userId == u && l.postId == p)
        = false := by
      rw [List.any_eq_false]
      intro l hl hb
      exact hnone l hl ((hpred l).mp hb)
    have hfil : st.likes.filter (fun l => !(l.userId == u && l.postId == p))
        = st.likes := by
      rw [List.filter_eq_self]
      intro l hl
      rw [Bool.not_eq_true']
      rw [Bool.eq_false_iff]
      intro hb
      exact hnone l hl ((hpred l).mp hb)
    refine ⟨?_, ?_, ?_⟩
    · rintro ⟨l, hl, hlp⟩
      exact absurd hlp (hnone l hl)
    · intro _
      refine ⟨hmem, ?_⟩
      unfold Routes.deleteLikeRoute
      rw [hmem]
      rfl
    · unfold DatabaseStorage.deleteLike
      rw [hmem, hany, hfil]
  | some l =>
    have hl : l ∈ st.likes := List.mem_of_find?_eq_some hf
    have hfs := List.find?_some hf
    have hlp : l.userId = u ∧ l.postId = p := (hpred l).mp hfs
    have hmem2 : MemStorage.deleteLike st u p =
        (st.likes.any (fun y => y.id == l.id),
          { st with likes :=
              st.likes.filter (fun y => !(y.id == l.id)) }) := by
      unfold MemStorage.deleteLike
      rw [hf]
      rfl
    have hany : st.likes.any (fun y => y.id == l.id) = true :=
      List.any_eq_true.mpr ⟨l, hl, by simp⟩
    have hany2 : st.likes.any (fun y => y.userId == u && y.postId == p)
        = true :=
      List.any_eq_true.mpr ⟨l, hl, (hpred l).mpr hlp⟩
    have hfil : st.likes.filter (fun y => !(y.id == l.id)) =
        st.likes.filter (fun y => !(y.userId == u && y.postId == p)) := by
      apply List.filter_congr
      intro x hx
      by_cases hxl : x = l
      · subst hxl
        simp [hlp.1, hlp.2]
      · have hxid : x.id ≠ l.id := by
          have hsymid : Symmetric (fun a b : Like => a.id ≠ b.id) := by
            intro a b hab
            exact Ne.symm hab
          exact hid.forall hsymid hx hl hxl
        have hxp : ¬(x.userId = u ∧ x.postId = p) := by
          intro hc
          have hsym : Symmetric (fun a b : Like =>
              ¬(a.userId = b.userId ∧ a.postId = b.postId)) := by
            intro a b hab hcc
            exact hab ⟨hcc.1.symm, hcc.2.symm⟩
          exact hup.forall hsym hx hl hxl
            ⟨hc.1.trans hlp.1.symm, hc.2.trans hlp.2.symm⟩
        have h1 : (x.id == l.id) = false := by
          simpa using hxid
        have h2 : (x.userId == u && x.postId == p) = false := by
          rw [Bool.eq_false_iff]
          intro hb
          exact hxp ((hpred x).mp hb)
        rw [h1, h2]
    refine ⟨fun _ => ⟨?_, ?_⟩, fun hno => absurd ⟨l, hl, hlp⟩ hno, ?_⟩
    · rw [hmem2]
      exact hany
    · rw [hmem2, hfil]
    · unfold DatabaseStorage.deleteLike
      rw [hmem2, hfil, hany, hany2]

/-- C10 witness: the deleteLike theorem applied on a one-like state, both
for the present pair (1, 1) and the absent pair (2, 1). -/
theorem C10_deleteLike_exact_witness :
    (MemStorage.deleteLike stC10 1 1).1 = true ∧
      (MemStorage.deleteLike stC10 1 1).2 =
        { stC10 with likes := stC10.likes.filter (fun l => !(l.userId == 1 && l.postId == 1)) } ∧
      MemStorage.deleteLike stC10 2 1 = (false, stC10) ∧
      Routes.deleteLikeRoute stC10 2 1 = (404, stC10) := by
  have h1 := C10_deleteLike_exact stC10 1 1 (by decide) (by decide)
  have h2 := C10_deleteLike_exact stC10 2 1 (by decide) (by decide)
  have he : ∃ l ∈ stC10.likes, l.userId = 1 ∧ l.postId = 1 := by decide
  have hne : ¬∃ l ∈ stC10.likes, l.userId = 2 ∧ l.postId = 1 := by decide
  exact ⟨(h1.1 he).1, (h1.1 he).2, (h2.2.1 hne).1, (h2.2.1 hne).2⟩

end GenZVibe
